import Mathlib

/-!
# Runtime CPU-feature detection and kernel dispatch of `c/blake3_dispatch.c`

A shallow embedding of the dispatch layer: the build configuration (the
preprocessor symbols the file tests), the machine answering `cpuid` and
`xgetbv`, the cache slot `g_cpu_features`, the probe `get_cpu_features` and
the three dispatchers.  Machine words are natural numbers; the one signed
conversion of the source (`const int max_id = *eax;`) is made explicit.
-/

namespace Blake3Dispatch

/-! ## Build configuration -/

/-- Target architecture as seen by the preprocessor: `x86_64` stands for
`__x86_64__` / `__amd64__` / `_M_X64`, `i386` for `__i386__` / `_M_IX86`,
`arm` for `__arm__`, `other` for none of them. -/
inductive Arch where
  | x86_64
  | i386
  | arm
  | other
deriving DecidableEq, Repr

/-- Compiler family tested on x86: `_MSC_VER` or `__GNUC__`. -/
inductive Compiler where
  | msvc
  | gnuc
deriving DecidableEq, Repr

/-- The preprocessor symbols that shape the translation unit. -/
structure Build where
  arch : Arch
  compiler : Compiler
  BLAKE3_NO_SSE41 : Bool
  BLAKE3_NO_AVX2 : Bool
  BLAKE3_NO_AVX512 : Bool
  BLAKE3_NO_NEON : Bool
  BLAKE3_TESTING : Bool
deriving DecidableEq, Repr

/-- Lines 7-9: `IS_X86`. -/
def Build.IS_X86 (b : Build) : Bool :=
  b.arch == Arch.x86_64 || b.arch == Arch.i386

/-- Lines 11-13: `IS_ARM`. -/
def Build.IS_ARM (b : Build) : Bool :=
  b.arch == Arch.arm

/-! ## The machine -/

/-- The four words `out[0..3]` written by a `cpuid` query. -/
structure Regs where
  eax : Nat
  ebx : Nat
  ecx : Nat
  edx : Nat
deriving DecidableEq, Repr

/-- What the processor answers.  `cpuid_insn leaf sub` is the content of
EAX, EBX, ECX, EDX after the CPUID instruction executed with EAX = `leaf` and
ECX = `sub`; `xcr0` is EDX:EAX after XGETBV with ECX = 0; `ecx` and `ebp` are the
contents of those two registers when the inline assembly runs (the assembly of
`cpuid` does not load ECX, and the 32-bit assembly reads EBP). -/
structure Machine where
  cpuid_insn : Nat → Nat → Regs
  xcr0 : Nat
  ecx : Nat
  ebp : Nat

/-- Lines 96-105: `xgetbv()`. -/
def xgetbv (m : Machine) : Nat :=
  m.xcr0

/-- Result of the GNU-style assembly of lines 113 and 126 on 32-bit targets:
`pushl %ebx; cpuid; movl %ebp, %esi; popl %ebx` with the outputs
`"=a"(out[0]), "=S"(out[1]), "=c"(out[2]), "=d"(out[3])`.
ESI, bound to `out[1]`, receives EBP. -/
def asm_cpuid_i386 (m : Machine) (id sid : Nat) : Regs :=
  let r := m.cpuid_insn id sid
  { eax := r.eax, ebx := m.ebp, ecx := r.ecx, edx := r.edx }

/-- Lines 107-118: `cpuid(out, id)`.  The MSVC intrinsic `__cpuid` and the
64-bit assembly deliver the four registers; ECX is not loaded by the
assembly, so the sub-leaf is whatever ECX holds. -/
def cpuid (b : Build) (m : Machine) (id : Nat) : Regs :=
  if b.compiler = Compiler.msvc then m.cpuid_insn id m.ecx
  else if b.arch = Arch.i386 then asm_cpuid_i386 m id m.ecx
  else m.cpuid_insn id m.ecx

/-- Lines 120-131: `cpuidex(out, id, sid)`. -/
def cpuidex (b : Build) (m : Machine) (id sid : Nat) : Regs :=
  if b.compiler = Compiler.msvc then m.cpuid_insn id sid
  else if b.arch = Arch.i386 then asm_cpuid_i386 m id sid
  else m.cpuid_insn id sid

/-! ## Capability bits (lines 135-145) -/

def SSE2 : Nat := 1 <<< 0
def SSSE3 : Nat := 1 <<< 1
def SSE41 : Nat := 1 <<< 2
def AVX : Nat := 1 <<< 3
def AVX2 : Nat := 1 <<< 4
def AVX512F : Nat := 1 <<< 5
def AVX512VL : Nat := 1 <<< 6
def UNDEFINED : Nat := 1 <<< 30

/-- The conversion `const int max_id = *eax;` of line 167: a 32-bit word read
as a two's-complement `int`. -/
def to_int32 (w : Nat) : Int :=
  if w % 2 ^ 32 < 2 ^ 31 then ((w % 2 ^ 32 : Nat) : Int)
  else ((w % 2 ^ 32 : Nat) : Int) - 2 ^ 32

/-! ## The probe and the cache (lines 147-207) -/

/-- Lines 162-197, the x86 branch of `get_cpu_features` up to the store:
the value of the local `features`.  Each `let` is one `features |= ...`
statement under its guard. -/
def probe_x86 (b : Build) (m : Machine) : Nat :=
  let features0 : Nat := 0
  let r0 := cpuid b m 0
  let max_id : Int := to_int32 r0.eax
  let r1 := cpuid b m 1
  let features1 :=
    if b.arch = Arch.x86_64 then features0 ||| SSE2
    else if r1.edx &&& (1 <<< 26) ≠ 0 then features0 ||| SSE2
    else features0
  let features2 :=
    if r1.ecx &&& (1 <<< 0) ≠ 0 then features1 ||| SSSE3 else features1
  let features3 :=
    if r1.ecx &&& (1 <<< 19) ≠ 0 then features2 ||| SSE41 else features2
  if r1.ecx &&& (1 <<< 27) ≠ 0 then
    let mask := xgetbv m
    if mask &&& 6 = 6 then
      let features4 :=
        if r1.ecx &&& (1 <<< 28) ≠ 0 then features3 ||| AVX else features3
      if max_id ≥ 7 then
        let r7 := cpuidex b m 7 0
        let features5 :=
          if r7.ebx &&& (1 <<< 5) ≠ 0 then features4 ||| AVX2 else features4
        if mask &&& 224 = 224 then
          let features6 :=
            if r7.ebx &&& (1 <<< 31) ≠ 0 then features5 ||| AVX512VL
            else features5
          if r7.ebx &&& (1 <<< 16) ≠ 0 then features6 ||| AVX512F
          else features6
        else features5
      else features4
    else features3
  else features3

/-- Lines 155-207: `get_cpu_features()`.  The argument `g` is the content of
the slot `g_cpu_features` on entry; the result is the returned value paired
with the content of the slot on exit.  Only the x86 branch writes the slot. -/
def get_cpu_features (b : Build) (m : Machine) (g : Nat) : Nat × Nat :=
  if g ≠ UNDEFINED then (g, g)
  else if b.IS_X86 = true then
    let features := probe_x86 b m
    (features, features)
  else if b.IS_ARM = true then (0, g)
  else (0, g)

/-! ## Kernels and dispatchers (lines 26-93, 209-283) -/

/-- The implementation a call is forwarded to. -/
inductive Impl where
  | portable
  | sse41
  | avx2
  | avx512
  | neon
deriving DecidableEq, Repr

/-- Arguments of `blake3_compress_in_place`; `cv` and `block` are the
contents of the buffers the pointers designate. -/
structure CompressArgs where
  cv : List Nat
  block : List Nat
  block_len : Nat
  counter : Nat
  flags : Nat
deriving DecidableEq, Repr

/-- Arguments of `blake3_compress_xof`. -/
structure XofArgs where
  cv : List Nat
  block : List Nat
  block_len : Nat
  counter : Nat
  flags : Nat
  out : List Nat
deriving DecidableEq, Repr

/-- Arguments of `blake3_hash_many`. -/
structure HashManyArgs where
  inputs : List (List Nat)
  num_inputs : Nat
  blocks : Nat
  key : List Nat
  counter : Nat
  increment_counter : Bool
  flags : Nat
  flags_start : Nat
  flags_end : Nat
  out : List Nat
deriving DecidableEq, Repr

/-- The external kernels declared on lines 26-93.  Each maps its arguments
to the content of the buffer it writes (`cv` for compress-in-place, `out`
for the other two).  A kernel whose declaration is compiled out is never
referenced by a dispatcher of that build. -/
structure Kernels where
  compress_in_place_portable : CompressArgs → List Nat
  compress_in_place_sse41 : CompressArgs → List Nat
  compress_in_place_avx512 : CompressArgs → List Nat
  compress_xof_portable : XofArgs → List Nat
  compress_xof_sse41 : XofArgs → List Nat
  compress_xof_avx512 : XofArgs → List Nat
  hash_many_portable : HashManyArgs → List Nat
  hash_many_sse41 : HashManyArgs → List Nat
  hash_many_avx2 : HashManyArgs → List Nat
  hash_many_avx512 : HashManyArgs → List Nat
  hash_many_neon : HashManyArgs → List Nat

/-- Observable effect of one dispatcher call: the slot afterwards, the kernel
invocations made (implementation and arguments passed, in order) and the
buffer content the invoked kernel produced. -/
structure Outcome (α : Type) where
  slot : Nat
  calls : List (Impl × α)
  output : List Nat

/-- Lines 209-230: `blake3_compress_in_place`. -/
def blake3_compress_in_place (b : Build) (K : Kernels) (m : Machine) (g : Nat)
    (a : CompressArgs) : Outcome CompressArgs :=
  let r := get_cpu_features b m g
  let features := r.1
  if b.IS_X86 = true ∧ b.BLAKE3_NO_AVX512 = false ∧ features &&& AVX512VL ≠ 0 then
    { slot := r.2, calls := [(Impl.avx512, a)], output := K.compress_in_place_avx512 a }
  else if b.IS_X86 = true ∧ b.BLAKE3_NO_SSE41 = false ∧ features &&& SSE41 ≠ 0 then
    { slot := r.2, calls := [(Impl.sse41, a)], output := K.compress_in_place_sse41 a }
  else
    { slot := r.2, calls := [(Impl.portable, a)], output := K.compress_in_place_portable a }

/-- Lines 232-253: `blake3_compress_xof`. -/
def blake3_compress_xof (b : Build) (K : Kernels) (m : Machine) (g : Nat)
    (a : XofArgs) : Outcome XofArgs :=
  let r := get_cpu_features b m g
  let features := r.1
  if b.IS_X86 = true ∧ b.BLAKE3_NO_AVX512 = false ∧ features &&& AVX512VL ≠ 0 then
    { slot := r.2, calls := [(Impl.avx512, a)], output := K.compress_xof_avx512 a }
  else if b.IS_X86 = true ∧ b.BLAKE3_NO_SSE41 = false ∧ features &&& SSE41 ≠ 0 then
    { slot := r.2, calls := [(Impl.sse41, a)], output := K.compress_xof_sse41 a }
  else
    { slot := r.2, calls := [(Impl.portable, a)], output := K.compress_xof_portable a }

/-- Lines 255-283: `blake3_hash_many`. -/
def blake3_hash_many (b : Build) (K : Kernels) (m : Machine) (g : Nat)
    (a : HashManyArgs) : Outcome HashManyArgs :=
  let r := get_cpu_features b m g
  let features := r.1
  if b.IS_X86 = true ∧ b.BLAKE3_NO_AVX512 = false ∧ features &&& AVX512F ≠ 0 then
    { slot := r.2, calls := [(Impl.avx512, a)], output := K.hash_many_avx512 a }
  else if b.IS_X86 = true ∧ b.BLAKE3_NO_AVX2 = false ∧ features &&& AVX2 ≠ 0 then
    { slot := r.2, calls := [(Impl.avx2, a)], output := K.hash_many_avx2 a }
  else if b.IS_X86 = true ∧ b.BLAKE3_NO_SSE41 = false ∧ features &&& SSE41 ≠ 0 then
    { slot := r.2, calls := [(Impl.sse41, a)], output := K.hash_many_sse41 a }
  else
    { slot := r.2, calls := [(Impl.portable, a)], output := K.hash_many_portable a }

/-! ## Names for the answers the claims speak of -/

/-- Answer of the processor to the leaf-0 query as `cpuid(regs, 0)` issues it. -/
def Machine.leaf0 (m : Machine) : Regs := m.cpuid_insn 0 m.ecx

/-- Answer of the processor to the leaf-1 query as `cpuid(regs, 1)` issues it. -/
def Machine.leaf1 (m : Machine) : Regs := m.cpuid_insn 1 m.ecx

/-- Answer of the processor to the query of leaf 7, sub-leaf 0. -/
def Machine.leaf7 (m : Machine) : Regs := m.cpuid_insn 7 0

/-- Leaf-1 ECX bit 27: the operating system uses XSAVE/XGETBV. -/
def Machine.osxsave (m : Machine) : Prop := m.leaf1.ecx &&& (1 <<< 27) ≠ 0

instance (m : Machine) : Decidable m.osxsave := by
  unfold Machine.osxsave; infer_instance

/-! ## Priority orders in the words of the specification (§4.3) -/

/-- Spec §4.3, order for the two compression operations: widest-vector tier
on its VL sub-capability, then the SSE4.1 tier; portable is the default. -/
def spec_compress_order : List (Impl × Nat) :=
  [(Impl.avx512, AVX512VL), (Impl.sse41, SSE41)]

/-- Spec §4.3, order for batch hashing: widest-vector tier on its F
sub-capability, then AVX2, then SSE4.1; portable is the default. -/
def spec_hash_many_order : List (Impl × Nat) :=
  [(Impl.avx512, AVX512F), (Impl.avx2, AVX2), (Impl.sse41, SSE41)]

/-- Spec §4.3 and §6: the per-tier build exclusion flags. -/
def spec_excluded (b : Build) : Impl → Bool
  | Impl.portable => false
  | Impl.sse41 => b.BLAKE3_NO_SSE41
  | Impl.avx2 => b.BLAKE3_NO_AVX2
  | Impl.avx512 => b.BLAKE3_NO_AVX512
  | Impl.neon => b.BLAKE3_NO_NEON

/-- Spec §4.3: the first tier of the order that is not excluded and whose
capability bit is present in the mask; the portable implementation if there
is none. -/
def spec_first_available (b : Build) (order : List (Impl × Nat)) (mask : Nat) : Impl :=
  match (order.filter (fun p => !spec_excluded b p.1)).find? (fun p => mask &&& p.2 != 0) with
  | some p => p.1
  | none => Impl.portable

/-- Every kernel that build `b` declares (lines 44-93) computes the same
function as the portable kernel of the same operation. -/
def kernels_agree (b : Build) (K : Kernels) : Prop :=
  (b.IS_X86 = true → b.BLAKE3_NO_SSE41 = false →
    (∀ a, K.compress_in_place_sse41 a = K.compress_in_place_portable a) ∧
    (∀ a, K.compress_xof_sse41 a = K.compress_xof_portable a) ∧
    (∀ a, K.hash_many_sse41 a = K.hash_many_portable a)) ∧
  (b.IS_X86 = true → b.BLAKE3_NO_AVX2 = false →
    ∀ a, K.hash_many_avx2 a = K.hash_many_portable a) ∧
  (b.IS_X86 = true → b.BLAKE3_NO_AVX512 = false →
    (∀ a, K.compress_in_place_avx512 a = K.compress_in_place_portable a) ∧
    (∀ a, K.compress_xof_avx512 a = K.compress_xof_portable a) ∧
    (∀ a, K.hash_many_avx512 a = K.hash_many_portable a)) ∧
  (b.IS_ARM = true → b.BLAKE3_NO_NEON = false →
    ∀ a, K.hash_many_neon a = K.hash_many_portable a)

/-! ## Successive calls -/

/-- Successive calls of `get_cpu_features`: call `i` runs on the `i`-th
machine of the list, from the slot the previous call left.  Each entry is
the returned value paired with the slot after that call. -/
def run_get_cpu_features (b : Build) : List Machine → Nat → List (Nat × Nat)
  | [], _ => []
  | m :: ms, g =>
    let r := get_cpu_features b m g
    r :: run_get_cpu_features b ms r.2

/-- Successive calls of one dispatcher `step`, threading the slot. -/
def run_dispatch {α : Type} (step : Machine → Nat → Outcome α) :
    List Machine → Nat → List (Outcome α)
  | [], _ => []
  | m :: ms, g =>
    let o := step m g
    o :: run_dispatch step ms o.slot

/-! ## Concrete builds, machines and arguments used to instantiate the theorems -/

/-- Kernels that all return the buffer they were handed. -/
def echo_kernels : Kernels :=
  { compress_in_place_portable := fun a => a.cv
    compress_in_place_sse41 := fun a => a.cv
    compress_in_place_avx512 := fun a => a.cv
    compress_xof_portable := fun a => a.out
    compress_xof_sse41 := fun a => a.out
    compress_xof_avx512 := fun a => a.out
    hash_many_portable := fun a => a.out
    hash_many_sse41 := fun a => a.out
    hash_many_avx2 := fun a => a.out
    hash_many_avx512 := fun a => a.out
    hash_many_neon := fun a => a.out }

/-- Kernels that tag their output with the tier, so that outputs tell the
selected implementation apart. -/
def tagged_kernels : Kernels :=
  { compress_in_place_portable := fun _ => [0]
    compress_in_place_sse41 := fun _ => [1]
    compress_in_place_avx512 := fun _ => [3]
    compress_xof_portable := fun _ => [0]
    compress_xof_sse41 := fun _ => [1]
    compress_xof_avx512 := fun _ => [3]
    hash_many_portable := fun _ => [0]
    hash_many_sse41 := fun _ => [1]
    hash_many_avx2 := fun _ => [2]
    hash_many_avx512 := fun _ => [3]
    hash_many_neon := fun _ => [4] }

/-- A 64-bit GNU-style build with every tier compiled in and the testing
override available. -/
def build_x86_64 : Build :=
  { arch := Arch.x86_64, compiler := Compiler.gnuc, BLAKE3_NO_SSE41 := false,
    BLAKE3_NO_AVX2 := false, BLAKE3_NO_AVX512 := false, BLAKE3_NO_NEON := false,
    BLAKE3_TESTING := true }

/-- The same build with the AVX-512 tier compiled out. -/
def build_x86_64_no_avx512 : Build :=
  { build_x86_64 with BLAKE3_NO_AVX512 := true }

/-- A 32-bit GNU-style build with every tier compiled in. -/
def build_i386_gnuc : Build :=
  { build_x86_64 with arch := Arch.i386 }

/-- An ARM build. -/
def build_arm : Build :=
  { build_x86_64 with arch := Arch.arm }

/-- A processor that answers every query with zeros. -/
def machine_zero : Machine :=
  { cpuid_insn := fun _ _ => ⟨0, 0, 0, 0⟩, xcr0 := 0, ecx := 0, ebp := 0 }

/-- A processor with AVX, AVX2, AVX-512 F and VL, all enabled by the
operating system: maximum leaf 7, leaf-1 ECX bits 19, 27, 28, leaf-7 EBX bits
5, 16, 31, XCR0 = 231. -/
def machine_avx512 : Machine :=
  { cpuid_insn := fun id _ =>
      if id = 0 then ⟨7, 0, 0, 0⟩
      else if id = 1 then ⟨0, 0, 1 <<< 19 ||| 1 <<< 27 ||| 1 <<< 28, 1 <<< 26⟩
      else ⟨0, 1 <<< 5 ||| 1 <<< 16 ||| 1 <<< 31, 0, 0⟩,
    xcr0 := 231, ecx := 0, ebp := 0 }

/-- A processor whose leaf-7 EBX word is zero (no AVX2, no AVX-512) while the
operating system enables all vector state, with EBP holding bits 16 and 31. -/
def machine_no_avx512_ebp : Machine :=
  { cpuid_insn := fun id _ =>
      if id = 0 then ⟨7, 0, 0, 0⟩
      else if id = 1 then ⟨0, 0, 1 <<< 27, 0⟩
      else ⟨0, 0, 0, 0⟩,
    xcr0 := 231, ecx := 0, ebp := 1 <<< 16 ||| 1 <<< 31 }

/-- A processor without AVX2 (leaf-7 EBX zero) whose operating system enables
the SSE and AVX state, with EBP holding bit 5. -/
def machine_no_avx2_ebp : Machine :=
  { cpuid_insn := fun id _ =>
      if id = 0 then ⟨7, 0, 0, 0⟩
      else if id = 1 then ⟨0, 0, 1 <<< 27, 0⟩
      else ⟨0, 0, 0, 0⟩,
    xcr0 := 6, ecx := 0, ebp := 1 <<< 5 }

/-- A processor answering leaf 0 with EAX = 0x80000000, with OSXSAVE,
XCR0 = 6 and leaf-7 EBX bit 5 (AVX2). -/
def machine_max_leaf_high : Machine :=
  { cpuid_insn := fun id _ =>
      if id = 0 then ⟨1 <<< 31, 0, 0, 0⟩
      else if id = 1 then ⟨0, 0, 1 <<< 27, 0⟩
      else ⟨0, 1 <<< 5, 0, 0⟩,
    xcr0 := 6, ecx := 0, ebp := 0 }

/-- A processor whose leaf-1 ECX has bit 0 (SSE3) only. -/
def machine_sse3_only : Machine :=
  { cpuid_insn := fun id _ => if id = 1 then ⟨0, 0, 1 <<< 0, 0⟩ else ⟨0, 0, 0, 0⟩,
    xcr0 := 0, ecx := 0, ebp := 0 }

/-- A processor whose leaf-1 ECX has bit 9 (SSSE3) only. -/
def machine_ssse3_only : Machine :=
  { cpuid_insn := fun id _ => if id = 1 then ⟨0, 0, 1 <<< 9, 0⟩ else ⟨0, 0, 0, 0⟩,
    xcr0 := 0, ecx := 0, ebp := 0 }

/-- A CPUID answer with leaf-7 EBX bit 31 (AVX512VL) set and bit 16 (AVX512F)
clear, all vector state enabled by the operating system, SSE4.1 present. -/
def machine_vl_without_f : Machine :=
  { cpuid_insn := fun id _ =>
      if id = 0 then ⟨7, 0, 0, 0⟩
      else if id = 1 then ⟨0, 0, 1 <<< 19 ||| 1 <<< 27, 0⟩
      else ⟨0, 1 <<< 31, 0, 0⟩,
    xcr0 := 231, ecx := 0, ebp := 0 }

/-- The example arguments of spec §8: all-zero chaining value and block,
`block_len = 64`, `counter = 0`, `flags = 0`. -/
def args_compress : CompressArgs :=
  { cv := List.replicate 8 0, block := List.replicate 64 0, block_len := 64,
    counter := 0, flags := 0 }

/-- The same with a zeroed 64-byte output buffer. -/
def args_xof : XofArgs :=
  { cv := List.replicate 8 0, block := List.replicate 64 0, block_len := 64,
    counter := 0, flags := 0, out := List.replicate 64 0 }

/-- One input of one block. -/
def args_hash_many : HashManyArgs :=
  { inputs := [List.replicate 64 0], num_inputs := 1, blocks := 1,
    key := List.replicate 8 0, counter := 0, increment_counter := true,
    flags := 0, flags_start := 1, flags_end := 2, out := List.replicate 32 0 }

/-! ## Dispatch ladders -/

/-- C1: on an x86 build with the SSE4.1 and AVX-512 tiers compiled in, whatever
mask `get_cpu_features` hands to the dispatcher, `blake3_compress_in_place` and
`blake3_compress_xof` each make exactly one kernel call, with the arguments
they received: the AVX-512 kernel when the AVX512VL bit is in the mask
(also when SSE41 is in it too), else the SSE4.1 kernel when the SSE41 bit is,
else the portable kernel; and they deliver that kernel's output. -/
theorem compress_dispatch_priority (b : Build) (K : Kernels) (m : Machine) (g mask : Nat)
    (a : CompressArgs) (x : XofArgs)
    (hx86 : b.IS_X86 = true)
    (hsse41 : b.BLAKE3_NO_SSE41 = false) (havx512 : b.BLAKE3_NO_AVX512 = false)
    (hmask : (get_cpu_features b m g).1 = mask) :
    (mask &&& AVX512VL ≠ 0 →
      (blake3_compress_in_place b K m g a).calls = [(Impl.avx512, a)] ∧
      (blake3_compress_in_place b K m g a).output = K.compress_in_place_avx512 a ∧
      (blake3_compress_xof b K m g x).calls = [(Impl.avx512, x)] ∧
      (blake3_compress_xof b K m g x).output = K.compress_xof_avx512 x) ∧
    (mask &&& AVX512VL = 0 → mask &&& SSE41 ≠ 0 →
      (blake3_compress_in_place b K m g a).calls = [(Impl.sse41, a)] ∧
      (blake3_compress_in_place b K m g a).output = K.compress_in_place_sse41 a ∧
      (blake3_compress_xof b K m g x).calls = [(Impl.sse41, x)] ∧
      (blake3_compress_xof b K m g x).output = K.compress_xof_sse41 x) ∧
    (mask &&& AVX512VL = 0 → mask &&& SSE41 = 0 →
      (blake3_compress_in_place b K m g a).calls = [(Impl.portable, a)] ∧
      (blake3_compress_in_place b K m g a).output = K.compress_in_place_portable a ∧
      (blake3_compress_xof b K m g x).calls = [(Impl.portable, x)] ∧
      (blake3_compress_xof b K m g x).output = K.compress_xof_portable x) := by
  subst hmask
  refine ⟨fun h => ?_, fun h1 h2 => ?_, fun h1 h2 => ?_⟩ <;>
    simp [blake3_compress_in_place, blake3_compress_xof, hx86, hsse41, havx512, *]

/-- Instance of C1 at the forced mask 68 = AVX512VL + SSE41: both compression
dispatchers call the AVX-512 kernel, once, with the spec's example
arguments. -/
theorem compress_dispatch_priority_witness :
    build_x86_64.IS_X86 = true ∧ build_x86_64.BLAKE3_NO_SSE41 = false ∧
    build_x86_64.BLAKE3_NO_AVX512 = false ∧
    (get_cpu_features build_x86_64 machine_zero 68).1 = 68 ∧
    (blake3_compress_in_place build_x86_64 tagged_kernels machine_zero 68 args_compress).calls
      = [(Impl.avx512, args_compress)] ∧
    (blake3_compress_in_place build_x86_64 tagged_kernels machine_zero 68 args_compress).output
      = [3] ∧
    (blake3_compress_xof build_x86_64 tagged_kernels machine_zero 68 args_xof).calls
      = [(Impl.avx512, args_xof)] ∧
    (blake3_compress_xof build_x86_64 tagged_kernels machine_zero 68 args_xof).output
      = [3] :=
  ⟨by decide, by decide, by decide, by decide,
    (compress_dispatch_priority build_x86_64 tagged_kernels machine_zero 68 68
      args_compress args_xof (by decide) (by decide) (by decide) (by decide)).1 (by decide)⟩

/-- C2: on an x86 build with no tier compiled out, whatever mask
`get_cpu_features` hands to the dispatcher, `blake3_hash_many` makes exactly
one kernel call, with the arguments it received: AVX-512 when the AVX512F bit
is in the mask, else AVX2 when the AVX2 bit is, else SSE4.1 when the SSE41 bit
is, else portable; and it delivers that kernel's output. -/
theorem hash_many_dispatch_priority (b : Build) (K : Kernels) (m : Machine) (g mask : Nat)
    (a : HashManyArgs)
    (hx86 : b.IS_X86 = true)
    (hsse41 : b.BLAKE3_NO_SSE41 = false) (havx2 : b.BLAKE3_NO_AVX2 = false)
    (havx512 : b.BLAKE3_NO_AVX512 = false)
    (hmask : (get_cpu_features b m g).1 = mask) :
    (mask &&& AVX512F ≠ 0 →
      (blake3_hash_many b K m g a).calls = [(Impl.avx512, a)] ∧
      (blake3_hash_many b K m g a).output = K.hash_many_avx512 a) ∧
    (mask &&& AVX512F = 0 → mask &&& AVX2 ≠ 0 →
      (blake3_hash_many b K m g a).calls = [(Impl.avx2, a)] ∧
      (blake3_hash_many b K m g a).output = K.hash_many_avx2 a) ∧
    (mask &&& AVX512F = 0 → mask &&& AVX2 = 0 → mask &&& SSE41 ≠ 0 →
      (blake3_hash_many b K m g a).calls = [(Impl.sse41, a)] ∧
      (blake3_hash_many b K m g a).output = K.hash_many_sse41 a) ∧
    (mask &&& AVX512F = 0 → mask &&& AVX2 = 0 → mask &&& SSE41 = 0 →
      (blake3_hash_many b K m g a).calls = [(Impl.portable, a)] ∧
      (blake3_hash_many b K m g a).output = K.hash_many_portable a) := by
  subst hmask
  refine ⟨fun h => ?_, fun h1 h2 => ?_, fun h1 h2 h3 => ?_, fun h1 h2 h3 => ?_⟩ <;>
    simp [blake3_hash_many, hx86, hsse41, havx2, havx512, *]

/-- Instance of C2 at the forced mask 20 = AVX2 + SSE41 (AVX512F absent): the
AVX2 kernel is called, not the SSE4.1 one. -/
theorem hash_many_dispatch_priority_witness :
    build_x86_64.IS_X86 = true ∧ build_x86_64.BLAKE3_NO_SSE41 = false ∧
    build_x86_64.BLAKE3_NO_AVX2 = false ∧ build_x86_64.BLAKE3_NO_AVX512 = false ∧
    (get_cpu_features build_x86_64 machine_zero 20).1 = 20 ∧
    (blake3_hash_many build_x86_64 tagged_kernels machine_zero 20 args_hash_many).calls
      = [(Impl.avx2, args_hash_many)] ∧
    (blake3_hash_many build_x86_64 tagged_kernels machine_zero 20 args_hash_many).output
      = [2] :=
  ⟨by decide, by decide, by decide, by decide, by decide,
    (hash_many_dispatch_priority build_x86_64 tagged_kernels machine_zero 20 20
      args_hash_many (by decide) (by decide) (by decide) (by decide) (by decide)).2.1
      (by decide) (by decide)⟩

/-- C3: on an x86 build with any combination of `BLAKE3_NO_SSE41`,
`BLAKE3_NO_AVX2`, `BLAKE3_NO_AVX512`, whatever mask `get_cpu_features` hands
over (also one claiming an excluded tier), each dispatcher makes exactly one
kernel call, to the first tier of its priority order that is not excluded and
whose bit is in the mask, or to the portable kernel when there is none; the
kernel called never belongs to an excluded tier. -/
theorem dispatch_skips_excluded_tiers (b : Build) (K : Kernels) (m : Machine) (g : Nat)
    (a : CompressArgs) (x : XofArgs) (h : HashManyArgs)
    (hx86 : b.IS_X86 = true) :
    (blake3_compress_in_place b K m g a).calls =
      [(spec_first_available b spec_compress_order (get_cpu_features b m g).1, a)] ∧
    (blake3_compress_xof b K m g x).calls =
      [(spec_first_available b spec_compress_order (get_cpu_features b m g).1, x)] ∧
    (blake3_hash_many b K m g h).calls =
      [(spec_first_available b spec_hash_many_order (get_cpu_features b m g).1, h)] ∧
    (∀ p ∈ (blake3_compress_in_place b K m g a).calls, spec_excluded b p.1 = false) ∧
    (∀ p ∈ (blake3_compress_xof b K m g x).calls, spec_excluded b p.1 = false) ∧
    (∀ p ∈ (blake3_hash_many b K m g h).calls, spec_excluded b p.1 = false) := by
  rcases b with ⟨arch, comp, s41, a2, a512, neon, tst⟩
  generalize hf : (get_cpu_features ⟨arch, comp, s41, a2, a512, neon, tst⟩ m g).1 = f
  simp only [blake3_compress_in_place, blake3_compress_xof, blake3_hash_many, hf, hx86,
    spec_first_available, spec_compress_order, spec_hash_many_order, spec_excluded]
  cases s41 <;> cases a2 <;> cases a512 <;>
    by_cases h1 : f &&& AVX512VL = 0 <;> by_cases h2 : f &&& AVX512F = 0 <;>
    by_cases h3 : f &&& AVX2 = 0 <;> by_cases h4 : f &&& SSE41 = 0 <;>
    simp [h1, h2, h3, h4, spec_excluded]

/-- Instance of C3, the example of the claim: AVX-512 compiled out and the
forced mask 100 = AVX512VL + AVX512F + SSE41; the three dispatchers call the
SSE4.1 kernel. -/
theorem dispatch_skips_excluded_tiers_witness :
    build_x86_64_no_avx512.IS_X86 = true ∧
    (get_cpu_features build_x86_64_no_avx512 machine_zero 100).1
      = AVX512VL ||| AVX512F ||| SSE41 ∧
    (blake3_compress_in_place build_x86_64_no_avx512 tagged_kernels machine_zero 100
      args_compress).calls = [(Impl.sse41, args_compress)] ∧
    (blake3_compress_xof build_x86_64_no_avx512 tagged_kernels machine_zero 100
      args_xof).calls = [(Impl.sse41, args_xof)] ∧
    (blake3_hash_many build_x86_64_no_avx512 tagged_kernels machine_zero 100
      args_hash_many).calls = [(Impl.sse41, args_hash_many)] :=
  have t := dispatch_skips_excluded_tiers build_x86_64_no_avx512 tagged_kernels machine_zero
    100 args_compress args_xof args_hash_many (by decide)
  ⟨by decide, by decide, t.1.trans (by decide), t.2.1.trans (by decide),
    t.2.2.1.trans (by decide)⟩

/-- C4: when every kernel the build declares computes the same function as
the portable kernel of its operation, then for every build, any two slot
contents `g1` and `g2` (forced masks, the empty mask 0, or the sentinel, in
which case the machine is probed) and any arguments, each dispatcher delivers
the same output under both, and that output is the portable kernel's. -/
theorem dispatch_output_independent_of_mask (b : Build) (K : Kernels) (m1 m2 : Machine)
    (g1 g2 : Nat) (a : CompressArgs) (x : XofArgs) (h : HashManyArgs)
    (hk : kernels_agree b K) :
    ((blake3_compress_in_place b K m1 g1 a).output
        = (blake3_compress_in_place b K m2 g2 a).output ∧
      (blake3_compress_in_place b K m1 g1 a).output = K.compress_in_place_portable a) ∧
    ((blake3_compress_xof b K m1 g1 x).output = (blake3_compress_xof b K m2 g2 x).output ∧
      (blake3_compress_xof b K m1 g1 x).output = K.compress_xof_portable x) ∧
    ((blake3_hash_many b K m1 g1 h).output = (blake3_hash_many b K m2 g2 h).output ∧
      (blake3_hash_many b K m1 g1 h).output = K.hash_many_portable h) := by
  obtain ⟨hs, ha2, ha5, -⟩ := hk
  have cip : ∀ mm gg, (blake3_compress_in_place b K mm gg a).output
      = K.compress_in_place_portable a := by
    intro mm gg
    simp only [blake3_compress_in_place]
    split_ifs with c1 c2
    · exact (ha5 c1.1 c1.2.1).1 a
    · exact (hs c2.1 c2.2.1).1 a
    · rfl
  have xof : ∀ mm gg, (blake3_compress_xof b K mm gg x).output
      = K.compress_xof_portable x := by
    intro mm gg
    simp only [blake3_compress_xof]
    split_ifs with c1 c2
    · exact (ha5 c1.1 c1.2.1).2.1 x
    · exact (hs c2.1 c2.2.1).2.1 x
    · rfl
  have hm : ∀ mm gg, (blake3_hash_many b K mm gg h).output
      = K.hash_many_portable h := by
    intro mm gg
    simp only [blake3_hash_many]
    split_ifs with c1 c2 c3
    · exact (ha5 c1.1 c1.2.1).2.2 h
    · exact ha2 c2.1 c2.2.1 h
    · exact (hs c3.1 c3.2.1).2.2 h
    · rfl
  exact ⟨⟨(cip m1 g1).trans (cip m2 g2).symm, cip m1 g1⟩,
    ⟨(xof m1 g1).trans (xof m2 g2).symm, xof m1 g1⟩,
    ⟨(hm m1 g1).trans (hm m2 g2).symm, hm m1 g1⟩⟩

/-- Instance of C4: with kernels that all compute the same function, the
output under the empty forced mask equals the output under the mask probed on
a processor with AVX-512 (where the AVX-512 kernels are the ones called). -/
theorem dispatch_output_independent_of_mask_witness :
    kernels_agree build_x86_64 echo_kernels ∧
    (blake3_compress_in_place build_x86_64 echo_kernels machine_zero 0 args_compress).output
      = (blake3_compress_in_place build_x86_64 echo_kernels machine_avx512 UNDEFINED
          args_compress).output ∧
    (blake3_compress_xof build_x86_64 echo_kernels machine_zero 0 args_xof).output
      = echo_kernels.compress_xof_portable args_xof ∧
    (blake3_hash_many build_x86_64 echo_kernels machine_zero 0 args_hash_many).output
      = (blake3_hash_many build_x86_64 echo_kernels machine_avx512 UNDEFINED
          args_hash_many).output :=
  have hk : kernels_agree build_x86_64 echo_kernels :=
    ⟨fun _ _ => ⟨fun _ => rfl, fun _ => rfl, fun _ => rfl⟩, fun _ _ _ => rfl,
      fun _ _ => ⟨fun _ => rfl, fun _ => rfl, fun _ => rfl⟩, fun _ _ _ => rfl⟩
  have t := dispatch_output_independent_of_mask build_x86_64 echo_kernels machine_zero
    machine_avx512 0 UNDEFINED args_compress args_xof args_hash_many hk
  ⟨hk, t.1.1, t.2.1.2, t.2.2.1⟩

/-! ## Auxiliary facts on the probe and the cache -/

theorem or_ite (c : Prop) [Decidable c] (x B : Nat) :
    (if c then x ||| B else x) = x ||| (if c then B else 0) := by
  split <;> simp

theorem probe_x86_eq (b : Build) (m : Machine) :
    probe_x86 b m =
      (if b.arch = Arch.x86_64 ∨ (cpuid b m 1).edx &&& (1 <<< 26) ≠ 0 then SSE2 else 0) |||
      (if (cpuid b m 1).ecx &&& (1 <<< 0) ≠ 0 then SSSE3 else 0) |||
      (if (cpuid b m 1).ecx &&& (1 <<< 19) ≠ 0 then SSE41 else 0) |||
      (if (cpuid b m 1).ecx &&& (1 <<< 27) ≠ 0 ∧ m.xcr0 &&& 6 = 6 ∧
          (cpuid b m 1).ecx &&& (1 <<< 28) ≠ 0 then AVX else 0) |||
      (if (cpuid b m 1).ecx &&& (1 <<< 27) ≠ 0 ∧ m.xcr0 &&& 6 = 6 ∧
          to_int32 (cpuid b m 0).eax ≥ 7 ∧
          (cpuidex b m 7 0).ebx &&& (1 <<< 5) ≠ 0 then AVX2 else 0) |||
      (if (cpuid b m 1).ecx &&& (1 <<< 27) ≠ 0 ∧ m.xcr0 &&& 6 = 6 ∧
          to_int32 (cpuid b m 0).eax ≥ 7 ∧ m.xcr0 &&& 224 = 224 ∧
          (cpuidex b m 7 0).ebx &&& (1 <<< 31) ≠ 0 then AVX512VL else 0) |||
      (if (cpuid b m 1).ecx &&& (1 <<< 27) ≠ 0 ∧ m.xcr0 &&& 6 = 6 ∧
          to_int32 (cpuid b m 0).eax ≥ 7 ∧ m.xcr0 &&& 224 = 224 ∧
          (cpuidex b m 7 0).ebx &&& (1 <<< 16) ≠ 0 then AVX512F else 0) := by
  unfold probe_x86
  lift_lets
  intro f0 r0 max_id r1 f1 f2 f3 mask f4 r7 f5 f6
  have e1 : f1 = if b.arch = Arch.x86_64 ∨ r1.edx &&& (1 <<< 26) ≠ 0 then SSE2 else 0 := by
    simp only [f1, f0]; split_ifs <;> simp_all
  have e2 : f2 = f1 ||| (if r1.ecx &&& (1 <<< 0) ≠ 0 then SSSE3 else 0) := or_ite _ _ _
  have e3 : f3 = f2 ||| (if r1.ecx &&& (1 <<< 19) ≠ 0 then SSE41 else 0) := or_ite _ _ _
  have e4 : f4 = f3 ||| (if r1.ecx &&& (1 <<< 28) ≠ 0 then AVX else 0) := or_ite _ _ _
  have e5 : f5 = f4 ||| (if r7.ebx &&& (1 <<< 5) ≠ 0 then AVX2 else 0) := or_ite _ _ _
  have e6 : f6 = f5 ||| (if r7.ebx &&& (1 <<< 31) ≠ 0 then AVX512VL else 0) := or_ite _ _ _
  rw [or_ite, e6, e5, e4, e3, e2, e1]
  simp only [mask, xgetbv, r1, r7, max_id, r0]
  by_cases h27 : (cpuid b m 1).ecx &&& (1 <<< 27) = 0 <;> by_cases h6 : m.xcr0 &&& 6 = 6 <;>
    by_cases h7 : to_int32 (cpuid b m 0).eax ≥ 7 <;> by_cases h224 : m.xcr0 &&& 224 = 224 <;>
    simp only [h27, h6, h7, h224, if_true, if_false, true_and, and_true, false_and, and_false,
      not_true_eq_false, not_false_eq_true, ne_eq, Nat.or_assoc, Nat.or_zero]

theorem lor_eq_zero (x y : Nat) : x ||| y = 0 ↔ x = 0 ∧ y = 0 := by
  constructor
  · intro h
    constructor <;> apply Nat.eq_of_testBit_eq <;> intro i <;>
      have := congrArg (fun z => z.testBit i) h <;> simp [Nat.testBit_or] at this ⊢ <;>
      simp [this]
  · rintro ⟨rfl, rfl⟩; rfl

theorem probe_x86_le (b : Build) (m : Machine) : probe_x86 b m ≤ 127 := by
  rw [probe_x86_eq]
  split_ifs <;> decide

theorem or_and_ne_zero (x y B : Nat) :
    (x ||| y) &&& B ≠ 0 ↔ (x &&& B ≠ 0 ∨ y &&& B ≠ 0) := by
  rw [Nat.and_distrib_right, ne_eq, lor_eq_zero]; tauto

theorem ite_and_ne_zero (c : Prop) [Decidable c] (K B : Nat) :
    (if c then K else 0) &&& B ≠ 0 ↔ (c ∧ K &&& B ≠ 0) := by
  split <;> simp [*]

theorem cpuid_leaf1_ecx (b : Build) (m : Machine) : (cpuid b m 1).ecx = m.leaf1.ecx := by
  simp only [cpuid, asm_cpuid_i386, Machine.leaf1]; split_ifs <;> rfl

theorem cpuid_leaf1_edx (b : Build) (m : Machine) : (cpuid b m 1).edx = m.leaf1.edx := by
  simp only [cpuid, asm_cpuid_i386, Machine.leaf1]; split_ifs <;> rfl

theorem cpuid_leaf0_eax (b : Build) (m : Machine) : (cpuid b m 0).eax = m.leaf0.eax := by
  simp only [cpuid, asm_cpuid_i386, Machine.leaf0]; split_ifs <;> rfl

theorem cpuidex_leaf7_ebx (b : Build) (m : Machine) :
    (cpuidex b m 7 0).ebx =
      if b.compiler = Compiler.gnuc ∧ b.arch = Arch.i386 then m.ebp else m.leaf7.ebx := by
  rcases b with ⟨arch, comp, s41, a2, a512, neon, tst⟩
  cases comp <;> cases arch <;> simp [cpuidex, asm_cpuid_i386, Machine.leaf7]

theorem probe_has_avx (b : Build) (m : Machine) :
    (probe_x86 b m &&& AVX ≠ 0 ↔
      (m.osxsave ∧ m.xcr0 &&& 6 = 6 ∧ m.leaf1.ecx &&& (1 <<< 28) ≠ 0)) := by
  rw [probe_x86_eq]
  simp only [or_and_ne_zero, ite_and_ne_zero, cpuid_leaf1_ecx, Machine.osxsave]
  simp +decide [SSE2, SSSE3, SSE41, AVX, AVX2, AVX512F, AVX512VL]

theorem probe_has_avx2 (b : Build) (m : Machine) :
    (probe_x86 b m &&& AVX2 ≠ 0 ↔
      (m.osxsave ∧ m.xcr0 &&& 6 = 6 ∧ to_int32 m.leaf0.eax ≥ 7 ∧
        (cpuidex b m 7 0).ebx &&& (1 <<< 5) ≠ 0)) := by
  rw [probe_x86_eq]
  simp only [or_and_ne_zero, ite_and_ne_zero, cpuid_leaf1_ecx, cpuid_leaf0_eax, Machine.osxsave]
  simp +decide [SSE2, SSSE3, SSE41, AVX, AVX2, AVX512F, AVX512VL]

theorem probe_has_avx512f (b : Build) (m : Machine) :
    (probe_x86 b m &&& AVX512F ≠ 0 ↔
      (m.osxsave ∧ m.xcr0 &&& 6 = 6 ∧ to_int32 m.leaf0.eax ≥ 7 ∧ m.xcr0 &&& 224 = 224 ∧
        (cpuidex b m 7 0).ebx &&& (1 <<< 16) ≠ 0)) := by
  rw [probe_x86_eq]
  simp only [or_and_ne_zero, ite_and_ne_zero, cpuid_leaf1_ecx, cpuid_leaf0_eax, Machine.osxsave]
  simp +decide [SSE2, SSSE3, SSE41, AVX, AVX2, AVX512F, AVX512VL]

theorem probe_has_avx512vl (b : Build) (m : Machine) :
    (probe_x86 b m &&& AVX512VL ≠ 0 ↔
      (m.osxsave ∧ m.xcr0 &&& 6 = 6 ∧ to_int32 m.leaf0.eax ≥ 7 ∧ m.xcr0 &&& 224 = 224 ∧
        (cpuidex b m 7 0).ebx &&& (1 <<< 31) ≠ 0)) := by
  rw [probe_x86_eq]
  simp only [or_and_ne_zero, ite_and_ne_zero, cpuid_leaf1_ecx, cpuid_leaf0_eax, Machine.osxsave]
  simp +decide [SSE2, SSSE3, SSE41, AVX, AVX2, AVX512F, AVX512VL]

theorem probe_x86_ne_UNDEFINED (b : Build) (m : Machine) : probe_x86 b m ≠ UNDEFINED := by
  have h := probe_x86_le b m
  have : (127 : Nat) < UNDEFINED := by decide
  omega

theorem get_cpu_features_cached (b : Build) (m : Machine) (v : Nat) (hv : v ≠ UNDEFINED) :
    get_cpu_features b m v = (v, v) := by
  simp [get_cpu_features, hv]

theorem get_cpu_features_x86_sentinel (b : Build) (m : Machine) (hx : b.IS_X86 = true) :
    get_cpu_features b m UNDEFINED = (probe_x86 b m, probe_x86 b m) := by
  simp [get_cpu_features, hx]

theorem get_cpu_features_other_sentinel (b : Build) (m : Machine) (hx : b.IS_X86 = false) :
    get_cpu_features b m UNDEFINED = (0, UNDEFINED) := by
  simp [get_cpu_features, hx]

theorem run_get_cpu_features_cached (b : Build) (ms : List Machine) (v : Nat)
    (hv : v ≠ UNDEFINED) :
    run_get_cpu_features b ms v = List.replicate ms.length (v, v) := by
  induction ms with
  | nil => rfl
  | cons m ms ih =>
    simp only [run_get_cpu_features, get_cpu_features_cached b m v hv, ih, List.length_cons,
      List.replicate_succ]

theorem run_get_cpu_features_other (b : Build) (ms : List Machine) (hx : b.IS_X86 = false) :
    run_get_cpu_features b ms UNDEFINED = List.replicate ms.length (0, UNDEFINED) := by
  induction ms with
  | nil => rfl
  | cons m ms ih =>
    simp only [run_get_cpu_features, get_cpu_features_other_sentinel b m hx, ih,
      List.length_cons, List.replicate_succ]

theorem and_230 (x : Nat) : x &&& 230 = 230 ↔ (x &&& 6 = 6 ∧ x &&& 224 = 224) := by
  have e : (230 : Nat) = 6 ||| 224 := by decide
  constructor
  · intro h
    have h6 : x &&& 6 = (x &&& 230) &&& 6 := by
      rw [Nat.and_assoc]; rfl
    have h224 : x &&& 224 = (x &&& 230) &&& 224 := by
      rw [Nat.and_assoc]; rfl
    rw [h6, h224, h]; exact ⟨by decide, by decide⟩
  · rintro ⟨h6, h224⟩
    rw [e, Nat.and_or_distrib_left, h6, h224]

theorem and_6 (x : Nat) (h : x &&& 6 = 6) : x &&& 2 ≠ 0 ∧ x &&& 4 ≠ 0 := by
  have h2 : x &&& 2 = (x &&& 6) &&& 2 := by rw [Nat.and_assoc]; rfl
  have h4 : x &&& 4 = (x &&& 6) &&& 4 := by rw [Nat.and_assoc]; rfl
  rw [h2, h4, h]; exact ⟨by decide, by decide⟩

theorem to_int32_ge_seven (w : Nat) (hw : w < 2 ^ 31) : to_int32 w ≥ 7 ↔ 7 ≤ w := by
  have h1 : w % 2 ^ 32 = w := Nat.mod_eq_of_lt (by omega)
  simp only [to_int32, h1, hw, if_true]
  omega

/-- The dispatchers do not look at the machine once the slot holds a value. -/
theorem run_dispatch_const {α : Type} (step : Machine → Nat → Outcome α) (o : Outcome α)
    (v : Nat) (hstep : ∀ mm, step mm v = o) (hslot : o.slot = v) (ms : List Machine) :
    run_dispatch step ms v = List.replicate ms.length o := by
  induction ms with
  | nil => rfl
  | cons m ms ih =>
    simp only [run_dispatch, hstep, hslot, ih, List.length_cons, List.replicate_succ]

/-- On the builds whose `cpuidex` delivers the EBX register (every x86 build
but the 32-bit GNU-style one) and for a maximum leaf below 2^31, AVX512F and
AVX512VL are reported exactly under the four gates and the respective bit of
leaf-7 EBX. -/
theorem probe_avx512_of_ebx_delivered (b : Build) (m : Machine)
    (hb : ¬ (b.compiler = Compiler.gnuc ∧ b.arch = Arch.i386))
    (he : m.leaf0.eax < 2 ^ 31) :
    (probe_x86 b m &&& AVX512F ≠ 0 ↔
      (m.osxsave ∧ m.xcr0 &&& 6 = 6 ∧ 7 ≤ m.leaf0.eax ∧ m.xcr0 &&& 224 = 224 ∧
        m.leaf7.ebx &&& (1 <<< 16) ≠ 0)) ∧
    (probe_x86 b m &&& AVX512VL ≠ 0 ↔
      (m.osxsave ∧ m.xcr0 &&& 6 = 6 ∧ 7 ≤ m.leaf0.eax ∧ m.xcr0 &&& 224 = 224 ∧
        m.leaf7.ebx &&& (1 <<< 31) ≠ 0)) := by
  rw [probe_has_avx512f, probe_has_avx512vl, cpuidex_leaf7_ebx, if_neg hb,
    to_int32_ge_seven _ he]
  exact ⟨Iff.rfl, Iff.rfl⟩

/-- Whatever the build, neither AVX-512 bit is reported unless XCR0 has all of
bits 5, 6 and 7. -/
theorem probe_no_avx512_without_zmm_state (b : Build) (m : Machine)
    (h : m.xcr0 &&& 224 ≠ 224) :
    probe_x86 b m &&& AVX512F = 0 ∧ probe_x86 b m &&& AVX512VL = 0 := by
  constructor
  · by_contra hc
    exact h ((probe_has_avx512f b m).1 hc).2.2.2.1
  · by_contra hc
    exact h ((probe_has_avx512vl b m).1 hc).2.2.2.1

/-! ## The cache slot -/

/-- C5: when the slot holds a value `v` other than the sentinel,
`get_cpu_features` returns `v` and leaves the slot at `v` whatever the
machine answers (two machines give the same result: nothing is probed);
hence any run of successive calls of one dispatcher from the forced mask `v`
with fixed arguments, on any machines, repeats one and the same outcome: same
slot, same kernel call, same output. -/
theorem cached_mask_returned_without_probing (b : Build) (K : Kernels) (v : Nat)
    (m m' : Machine) (ms : List Machine) (a : CompressArgs) (x : XofArgs) (h : HashManyArgs)
    (hv : v ≠ UNDEFINED) :
    get_cpu_features b m v = (v, v) ∧
    get_cpu_features b m' v = get_cpu_features b m v ∧
    run_dispatch (fun mm g => blake3_compress_in_place b K mm g a) ms v
      = List.replicate ms.length (blake3_compress_in_place b K m v a) ∧
    run_dispatch (fun mm g => blake3_compress_xof b K mm g x) ms v
      = List.replicate ms.length (blake3_compress_xof b K m v x) ∧
    run_dispatch (fun mm g => blake3_hash_many b K mm g h) ms v
      = List.replicate ms.length (blake3_hash_many b K m v h) := by
  have hc := get_cpu_features_cached b
  refine ⟨hc m v hv, by rw [hc m v hv, hc m' v hv], ?_, ?_, ?_⟩
  · apply run_dispatch_const
    · intro mm; simp only [blake3_compress_in_place, hc mm v hv, hc m v hv]
    · simp only [blake3_compress_in_place, hc m v hv]; split_ifs <;> rfl
  · apply run_dispatch_const
    · intro mm; simp only [blake3_compress_xof, hc mm v hv, hc m v hv]
    · simp only [blake3_compress_xof, hc m v hv]; split_ifs <;> rfl
  · apply run_dispatch_const
    · intro mm; simp only [blake3_hash_many, hc mm v hv, hc m v hv]
    · simp only [blake3_hash_many, hc m v hv]; split_ifs <;> rfl

/-- Instance of C5 at the forced mask 4 = SSE41: a processor with AVX-512 is
not consulted, and three successive `blake3_hash_many` calls on different
machines each call the SSE4.1 kernel. -/
theorem cached_mask_returned_without_probing_witness :
    (4 : Nat) ≠ UNDEFINED ∧
    get_cpu_features build_x86_64 machine_avx512 4 = (4, 4) ∧
    run_dispatch (fun mm g => blake3_hash_many build_x86_64 tagged_kernels mm g args_hash_many)
        [machine_zero, machine_avx512, machine_zero] 4
      = List.replicate 3
          (blake3_hash_many build_x86_64 tagged_kernels machine_avx512 4 args_hash_many) ∧
    (blake3_hash_many build_x86_64 tagged_kernels machine_avx512 4 args_hash_many).calls
      = [(Impl.sse41, args_hash_many)] :=
  have t := cached_mask_returned_without_probing build_x86_64 tagged_kernels 4 machine_avx512
    machine_zero [machine_zero, machine_avx512, machine_zero] args_compress args_xof
    args_hash_many (by decide)
  ⟨by decide, t.1, t.2.2.2.2, by decide⟩

/-- C6, evaluated on an ARM build: from the sentinel, `get_cpu_features`
returns the empty set 0 but the slot still holds the sentinel afterwards, so
the slot differs from the returned value and the next call takes the probing
branch again. -/
theorem arm_probe_result_not_stored :
    build_arm.IS_X86 = false ∧
    get_cpu_features build_arm machine_zero UNDEFINED = (0, UNDEFINED) ∧
    (get_cpu_features build_arm machine_zero UNDEFINED).2
      ≠ (get_cpu_features build_arm machine_zero UNDEFINED).1 ∧
    run_get_cpu_features build_arm [machine_zero, machine_zero] UNDEFINED
      = [(0, UNDEFINED), (0, UNDEFINED)] := by
  decide

/-- C7: from the sentinel, in any run of successive `get_cpu_features` calls
on machines that may all differ, every call returns what the first call
returned; on x86 the slot holds that value after the first call and after
every later one. -/
theorem first_result_returned_forever (b : Build) (m0 : Machine) (ms : List Machine) :
    (run_get_cpu_features b (m0 :: ms) UNDEFINED).map Prod.fst
      = List.replicate (ms.length + 1) (get_cpu_features b m0 UNDEFINED).1 ∧
    (b.IS_X86 = true →
      (run_get_cpu_features b (m0 :: ms) UNDEFINED).map Prod.snd
        = List.replicate (ms.length + 1) (get_cpu_features b m0 UNDEFINED).1) := by
  cases hx : b.IS_X86
  · rw [run_get_cpu_features_other b _ hx, get_cpu_features_other_sentinel b m0 hx]
    simp
  · have hne := probe_x86_ne_UNDEFINED b m0
    simp only [run_get_cpu_features, get_cpu_features_x86_sentinel b m0 hx,
      run_get_cpu_features_cached b ms _ hne]
    simp [List.replicate_succ]

/-- Instance of C7 on a 64-bit build: the first call probes a processor with
SSE2 only, the later calls run on a processor with AVX-512 and on one
answering zeros; all three return 1 and leave 1 in the slot. -/
theorem first_result_returned_forever_witness :
    build_x86_64.IS_X86 = true ∧
    (get_cpu_features build_x86_64 machine_zero UNDEFINED).1 = 1 ∧
    (run_get_cpu_features build_x86_64 [machine_zero, machine_avx512, machine_zero]
        UNDEFINED).map Prod.fst = [1, 1, 1] ∧
    (run_get_cpu_features build_x86_64 [machine_zero, machine_avx512, machine_zero]
        UNDEFINED).map Prod.snd = [1, 1, 1] :=
  have t := first_result_returned_forever build_x86_64 machine_zero
    [machine_avx512, machine_zero]
  ⟨by decide, by decide, t.1.trans (by decide), (t.2 (by decide)).trans (by decide)⟩

/-! ## Operating-system gating of the AVX tiers -/

/-- C8: on x86, the value probed from the sentinel state contains AVX exactly
when leaf-1 ECX bit 27 (OSXSAVE) is set, `(XCR0 & 6) == 6` and leaf-1 ECX bit 28
is set; AVX is not reported when OSXSAVE is clear, nor when XCR0 bit 1 (SSE
state) or bit 2 (AVX state) is clear. -/
theorem avx_reported_iff_os_enabled (b : Build) (m : Machine) (hx : b.IS_X86 = true) :
    ((get_cpu_features b m UNDEFINED).1 &&& AVX ≠ 0 ↔
      (m.osxsave ∧ m.xcr0 &&& 6 = 6 ∧ m.leaf1.ecx &&& (1 <<< 28) ≠ 0)) ∧
    (¬ m.osxsave → (get_cpu_features b m UNDEFINED).1 &&& AVX = 0) ∧
    (m.xcr0 &&& 2 = 0 ∨ m.xcr0 &&& 4 = 0 → (get_cpu_features b m UNDEFINED).1 &&& AVX = 0) := by
  rw [get_cpu_features_x86_sentinel b m hx]
  refine ⟨probe_has_avx b m, fun hn => ?_, fun hz => ?_⟩
  · by_contra hc
    exact hn ((probe_has_avx b m).1 hc).1
  · by_contra hc
    have h6 := and_6 _ ((probe_has_avx b m).1 hc).2.1
    rcases hz with hz | hz
    · exact h6.1 hz
    · exact h6.2 hz

/-- Instance of C8: a 64-bit build on a processor with OSXSAVE, XCR0 = 231 and
leaf-1 ECX bit 28 reports AVX. -/
theorem avx_reported_iff_os_enabled_witness :
    build_x86_64.IS_X86 = true ∧
    (machine_avx512.osxsave ∧ machine_avx512.xcr0 &&& 6 = 6 ∧
      machine_avx512.leaf1.ecx &&& (1 <<< 28) ≠ 0) ∧
    (get_cpu_features build_x86_64 machine_avx512 UNDEFINED).1 &&& AVX ≠ 0 :=
  have hc : machine_avx512.osxsave ∧ machine_avx512.xcr0 &&& 6 = 6 ∧
      machine_avx512.leaf1.ecx &&& (1 <<< 28) ≠ 0 := by decide
  ⟨by decide, hc,
    (avx_reported_iff_os_enabled build_x86_64 machine_avx512 (by decide)).1.2 hc⟩

/-- C9, evaluated on a 32-bit GNU-style build.  The assembly of `cpuidex`
stores EBP, not EBX, in `out[1]`.  With the four gates open (OSXSAVE,
`(XCR0 & 6) == 6`, maximum leaf 7 < 2^31, `(XCR0 & 224) == 224`):
a processor whose leaf-7 EBX has neither bit 16 nor bit 31 is reported to have
AVX512F and AVX512VL when EBP holds those bits, and a processor whose leaf-7 EBX
has both bits is reported to have neither when EBP is zero. -/
theorem i386_gnuc_avx512_bits_read_from_ebp :
    build_i386_gnuc.IS_X86 = true ∧
    (machine_no_avx512_ebp.leaf0.eax < 2 ^ 31 ∧ machine_no_avx512_ebp.osxsave ∧
      machine_no_avx512_ebp.xcr0 &&& 6 = 6 ∧ 7 ≤ machine_no_avx512_ebp.leaf0.eax ∧
      machine_no_avx512_ebp.xcr0 &&& 224 = 224 ∧
      machine_no_avx512_ebp.leaf7.ebx &&& (1 <<< 16) = 0 ∧
      machine_no_avx512_ebp.leaf7.ebx &&& (1 <<< 31) = 0 ∧
      (get_cpu_features build_i386_gnuc machine_no_avx512_ebp UNDEFINED).1 &&& AVX512F ≠ 0 ∧
      (get_cpu_features build_i386_gnuc machine_no_avx512_ebp UNDEFINED).1 &&& AVX512VL ≠ 0) ∧
    (machine_avx512.leaf0.eax < 2 ^ 31 ∧ machine_avx512.osxsave ∧
      machine_avx512.xcr0 &&& 6 = 6 ∧ 7 ≤ machine_avx512.leaf0.eax ∧
      machine_avx512.xcr0 &&& 224 = 224 ∧
      machine_avx512.leaf7.ebx &&& (1 <<< 16) ≠ 0 ∧
      machine_avx512.leaf7.ebx &&& (1 <<< 31) ≠ 0 ∧
      (get_cpu_features build_i386_gnuc machine_avx512 UNDEFINED).1 &&& AVX512F = 0 ∧
      (get_cpu_features build_i386_gnuc machine_avx512 UNDEFINED).1 &&& AVX512VL = 0) := by
  decide

/-- C10: on x86 from the sentinel state, a dispatcher that forwards to an
AVX-512 kernel does so only when OSXSAVE is set and `(XCR0 & 230) == 230`, and
`blake3_hash_many` forwards to the AVX2 kernel only when OSXSAVE is set and
`(XCR0 & 6) == 6`. -/
theorem vector_kernels_only_when_os_enabled (b : Build) (K : Kernels) (m : Machine)
    (a : CompressArgs) (x : XofArgs) (h : HashManyArgs) (hx : b.IS_X86 = true) :
    ((∃ p ∈ (blake3_compress_in_place b K m UNDEFINED a).calls, p.1 = Impl.avx512) →
      m.osxsave ∧ m.xcr0 &&& 230 = 230) ∧
    ((∃ p ∈ (blake3_compress_xof b K m UNDEFINED x).calls, p.1 = Impl.avx512) →
      m.osxsave ∧ m.xcr0 &&& 230 = 230) ∧
    ((∃ p ∈ (blake3_hash_many b K m UNDEFINED h).calls, p.1 = Impl.avx512) →
      m.osxsave ∧ m.xcr0 &&& 230 = 230) ∧
    ((∃ p ∈ (blake3_hash_many b K m UNDEFINED h).calls, p.1 = Impl.avx2) →
      m.osxsave ∧ m.xcr0 &&& 6 = 6) := by
  have hvl : probe_x86 b m &&& AVX512VL ≠ 0 → m.osxsave ∧ m.xcr0 &&& 230 = 230 := fun hc =>
    have t := (probe_has_avx512vl b m).1 hc
    ⟨t.1, (and_230 _).2 ⟨t.2.1, t.2.2.2.1⟩⟩
  have hf : probe_x86 b m &&& AVX512F ≠ 0 → m.osxsave ∧ m.xcr0 &&& 230 = 230 := fun hc =>
    have t := (probe_has_avx512f b m).1 hc
    ⟨t.1, (and_230 _).2 ⟨t.2.1, t.2.2.2.1⟩⟩
  have h2 : probe_x86 b m &&& AVX2 ≠ 0 → m.osxsave ∧ m.xcr0 &&& 6 = 6 := fun hc =>
    have t := (probe_has_avx2 b m).1 hc
    ⟨t.1, t.2.1⟩
  simp only [blake3_compress_in_place, blake3_compress_xof, blake3_hash_many,
    get_cpu_features_x86_sentinel b m hx]
  refine ⟨?_, ?_, ?_, ?_⟩
  · split_ifs with c1 c2
    · exact fun _ => hvl c1.2.2
    · simp
    · simp
  · split_ifs with c1 c2
    · exact fun _ => hvl c1.2.2
    · simp
    · simp
  · split_ifs with c1 c2 c3
    · exact fun _ => hf c1.2.2
    · simp
    · simp
    · simp
  · split_ifs with c1 c2 c3
    · simp
    · exact fun _ => h2 c2.2.2
    · simp
    · simp

/-- Instance of C10: a 64-bit build probing a processor with AVX-512 enabled
by the operating system (XCR0 = 231) calls the AVX-512 kernel in
`blake3_compress_in_place`, and OSXSAVE and `(XCR0 & 230) == 230` hold. -/
theorem vector_kernels_only_when_os_enabled_witness :
    build_x86_64.IS_X86 = true ∧
    (∃ p ∈ (blake3_compress_in_place build_x86_64 tagged_kernels machine_avx512 UNDEFINED
      args_compress).calls, p.1 = Impl.avx512) ∧
    machine_avx512.osxsave ∧ machine_avx512.xcr0 &&& 230 = 230 :=
  have hsel : ∃ p ∈ (blake3_compress_in_place build_x86_64 tagged_kernels machine_avx512
      UNDEFINED args_compress).calls, p.1 = Impl.avx512 :=
    ⟨(Impl.avx512, args_compress), by decide, rfl⟩
  ⟨by decide, hsel,
    (vector_kernels_only_when_os_enabled build_x86_64 tagged_kernels machine_avx512
      args_compress args_xof args_hash_many (by decide)).1 hsel⟩

/-! ## Further facts on the probe -/

theorem probe_has_sse2 (b : Build) (m : Machine) :
    (probe_x86 b m &&& SSE2 ≠ 0 ↔
      (b.arch = Arch.x86_64 ∨ m.leaf1.edx &&& (1 <<< 26) ≠ 0)) := by
  rw [probe_x86_eq]
  simp only [or_and_ne_zero, ite_and_ne_zero, cpuid_leaf1_ecx, cpuid_leaf1_edx]
  simp +decide [SSE2, SSSE3, SSE41, AVX, AVX2, AVX512F, AVX512VL]

theorem probe_has_ssse3 (b : Build) (m : Machine) :
    (probe_x86 b m &&& SSSE3 ≠ 0 ↔ m.leaf1.ecx &&& (1 <<< 0) ≠ 0) := by
  rw [probe_x86_eq]
  simp only [or_and_ne_zero, ite_and_ne_zero, cpuid_leaf1_ecx, cpuid_leaf1_edx]
  simp +decide [SSE2, SSSE3, SSE41, AVX, AVX2, AVX512F, AVX512VL]

theorem probe_has_sse41 (b : Build) (m : Machine) :
    (probe_x86 b m &&& SSE41 ≠ 0 ↔ m.leaf1.ecx &&& (1 <<< 19) ≠ 0) := by
  rw [probe_x86_eq]
  simp only [or_and_ne_zero, ite_and_ne_zero, cpuid_leaf1_ecx, cpuid_leaf1_edx]
  simp +decide [SSE2, SSSE3, SSE41, AVX, AVX2, AVX512F, AVX512VL]

theorem and_sentinel_of_le (x : Nat) (h : x ≤ 127) : x &&& UNDEFINED = 0 := by
  have hx : x &&& 127 = x := by
    have := Nat.and_pow_two_sub_one_of_lt_two_pow (x := x) (n := 7) (by omega)
    simpa using this
  rw [← hx, Nat.and_assoc]
  have : (127 &&& UNDEFINED : Nat) = 0 := by decide
  rw [this, Nat.and_zero]

theorem and_selector_bits (v S B : Nat) (hB : S &&& B = B) : v &&& B = (v &&& S) &&& B := by
  rw [Nat.and_assoc, hB]

/-- On the builds whose `cpuidex` delivers the EBX register and for a maximum
leaf below 2^31, AVX2 is reported exactly under OSXSAVE, `(XCR0 & 6) == 6`,
maximum leaf at least 7 and leaf-7 EBX bit 5. -/
theorem probe_avx2_of_ebx_delivered (b : Build) (m : Machine)
    (hb : ¬ (b.compiler = Compiler.gnuc ∧ b.arch = Arch.i386))
    (he : m.leaf0.eax < 2 ^ 31) :
    (probe_x86 b m &&& AVX2 ≠ 0 ↔
      (m.osxsave ∧ m.xcr0 &&& 6 = 6 ∧ 7 ≤ m.leaf0.eax ∧ m.leaf7.ebx &&& (1 <<< 5) ≠ 0)) := by
  rw [probe_has_avx2, cpuidex_leaf7_ebx, if_neg hb, to_int32_ge_seven _ he]

/-! ## Builds that are not x86 -/

/-- C11: on a build that is not x86 (ARM or any other), `get_cpu_features`
returns 0 from the sentinel, and whatever the slot holds (also a forced mask
with every bit set) each of the three dispatchers makes exactly one call, to
the portable kernel, with the arguments it received; the NEON kernel is never
called. -/
theorem non_x86_always_portable (b : Build) (K : Kernels) (m : Machine) (g : Nat)
    (a : CompressArgs) (x : XofArgs) (h : HashManyArgs) (hx : b.IS_X86 = false) :
    (get_cpu_features b m UNDEFINED).1 = 0 ∧
    ((blake3_compress_in_place b K m g a).calls = [(Impl.portable, a)] ∧
      (blake3_compress_in_place b K m g a).output = K.compress_in_place_portable a) ∧
    ((blake3_compress_xof b K m g x).calls = [(Impl.portable, x)] ∧
      (blake3_compress_xof b K m g x).output = K.compress_xof_portable x) ∧
    ((blake3_hash_many b K m g h).calls = [(Impl.portable, h)] ∧
      (blake3_hash_many b K m g h).output = K.hash_many_portable h) := by
  refine ⟨by rw [get_cpu_features_other_sentinel b m hx], ?_, ?_, ?_⟩ <;>
    simp [blake3_compress_in_place, blake3_compress_xof, blake3_hash_many, hx]

/-- Instance of C11: an ARM build with the forced mask 127 (every capability
bit), on a processor with AVX-512; the portable kernels are called. -/
theorem non_x86_always_portable_witness :
    build_arm.IS_X86 = false ∧
    (get_cpu_features build_arm machine_avx512 UNDEFINED).1 = 0 ∧
    (blake3_compress_in_place build_arm tagged_kernels machine_avx512 127 args_compress).calls
      = [(Impl.portable, args_compress)] ∧
    (blake3_compress_xof build_arm tagged_kernels machine_avx512 127 args_xof).calls
      = [(Impl.portable, args_xof)] ∧
    (blake3_hash_many build_arm tagged_kernels machine_avx512 127 args_hash_many).calls
      = [(Impl.portable, args_hash_many)] ∧
    (blake3_hash_many build_arm tagged_kernels machine_avx512 127 args_hash_many).output
      = [0] :=
  have t := non_x86_always_portable build_arm tagged_kernels machine_avx512 127
    args_compress args_xof args_hash_many (by decide)
  ⟨by decide, t.1, t.2.1.1, t.2.2.1.1, t.2.2.2.1, t.2.2.2.2⟩

/-! ## The single capability bits -/

/-- C12, evaluated on a 32-bit GNU-style build, where `cpuidex` stores EBP in
`out[1]`.  With OSXSAVE set, `(XCR0 & 6) == 6` and maximum leaf 7 < 2^31: a
processor whose leaf-7 EBX bit 5 is clear is reported to have AVX2 when EBP
holds bit 5, and a processor whose leaf-7 EBX bit 5 is set is reported not to
have AVX2 when EBP is zero. -/
theorem i386_gnuc_avx2_bit_read_from_ebp :
    build_i386_gnuc.IS_X86 = true ∧
    (machine_no_avx2_ebp.leaf0.eax < 2 ^ 31 ∧ machine_no_avx2_ebp.osxsave ∧
      machine_no_avx2_ebp.xcr0 &&& 6 = 6 ∧ 7 ≤ machine_no_avx2_ebp.leaf0.eax ∧
      machine_no_avx2_ebp.leaf7.ebx &&& (1 <<< 5) = 0 ∧
      (get_cpu_features build_i386_gnuc machine_no_avx2_ebp UNDEFINED).1 &&& AVX2 ≠ 0) ∧
    (machine_avx512.leaf0.eax < 2 ^ 31 ∧ machine_avx512.osxsave ∧
      machine_avx512.xcr0 &&& 6 = 6 ∧ 7 ≤ machine_avx512.leaf0.eax ∧
      machine_avx512.leaf7.ebx &&& (1 <<< 5) ≠ 0 ∧
      (get_cpu_features build_i386_gnuc machine_avx512 UNDEFINED).1 &&& AVX2 = 0) := by
  decide

/-- C13 fails as stated: on a 64-bit build at leaf-0 EAX = 0x80000000 the word
is at least 7 as an unsigned 32-bit value, OSXSAVE is set, `(XCR0 & 6) == 6` and
leaf-7 EBX bit 5 is set, yet `max_id`, declared `int`, is -2147483648, the test
`max_id >= 7` fails, leaf 7 is not queried and AVX2 is not reported. -/
theorem max_leaf_compared_as_signed_int :
    build_x86_64.IS_X86 = true ∧
    machine_max_leaf_high.leaf0.eax = 2 ^ 31 ∧
    machine_max_leaf_high.leaf0.eax < 2 ^ 32 ∧ 7 ≤ machine_max_leaf_high.leaf0.eax ∧
    machine_max_leaf_high.osxsave ∧ machine_max_leaf_high.xcr0 &&& 6 = 6 ∧
    machine_max_leaf_high.leaf7.ebx &&& (1 <<< 5) ≠ 0 ∧
    to_int32 machine_max_leaf_high.leaf0.eax = -2147483648 ∧
    (get_cpu_features build_x86_64 machine_max_leaf_high UNDEFINED).1 &&& AVX2 = 0 := by
  decide

theorem to_int32_neg_of_high (w : Nat) (h1 : 2 ^ 31 ≤ w) (h2 : w < 2 ^ 32) :
    to_int32 w < 0 := by
  have hm : w % 2 ^ 32 = w := Nat.mod_eq_of_lt h2
  have hn : ¬ w < 2 ^ 31 := by omega
  simp only [to_int32, hm, hn, if_false]
  omega

/-- C13, amended: on an x86 build whose `cpuidex` delivers EBX (every one but
the 32-bit GNU-style build), with OSXSAVE set and `(XCR0 & 6) == 6`, for every
leaf-0 EAX value from 7 up to 2^31 - 1 the probe performs the leaf-7 query:
AVX2 is reported exactly when leaf-7 EBX bit 5 is set.  The maximum leaf is
compared with 7 as a signed 32-bit `int`: for a 32-bit word the test
`max_id >= 7` holds exactly when the word is at least 7 and below 2^31, and for
a word of 2^31 or more AVX2 is not reported, on any x86 build. -/
theorem avx2_reported_for_signed_max_leaf (b : Build) (m : Machine)
    (hx : b.IS_X86 = true) (hosx : m.osxsave) (h6 : m.xcr0 &&& 6 = 6) :
    (¬ (b.compiler = Compiler.gnuc ∧ b.arch = Arch.i386) →
      7 ≤ m.leaf0.eax → m.leaf0.eax < 2 ^ 31 →
      ((get_cpu_features b m UNDEFINED).1 &&& AVX2 ≠ 0 ↔ m.leaf7.ebx &&& (1 <<< 5) ≠ 0)) ∧
    (m.leaf0.eax < 2 ^ 32 →
      (to_int32 m.leaf0.eax ≥ 7 ↔ (7 ≤ m.leaf0.eax ∧ m.leaf0.eax < 2 ^ 31))) ∧
    (2 ^ 31 ≤ m.leaf0.eax → m.leaf0.eax < 2 ^ 32 →
      (get_cpu_features b m UNDEFINED).1 &&& AVX2 = 0) := by
  rw [get_cpu_features_x86_sentinel b m hx]
  refine ⟨fun hb h7 hlt => ?_, fun h32 => ?_, fun hhi h32 => ?_⟩
  · rw [probe_has_avx2, cpuidex_leaf7_ebx, if_neg hb, to_int32_ge_seven _ hlt]
    exact ⟨fun t => t.2.2.2, fun t => ⟨hosx, h6, h7, t⟩⟩
  · by_cases hlt : m.leaf0.eax < 2 ^ 31
    · rw [to_int32_ge_seven _ hlt]
      exact ⟨fun t => ⟨t, hlt⟩, fun t => t.1⟩
    · have hneg := to_int32_neg_of_high _ (by omega) h32
      constructor
      · intro t; omega
      · intro t; exact absurd t.2 hlt
  · by_contra hc
    have t := ((probe_has_avx2 b m).1 hc).2.2.1
    have hneg := to_int32_neg_of_high _ hhi h32
    omega

/-- Instance of the amended C13: a 64-bit build on a processor with maximum
leaf 7, OSXSAVE, XCR0 = 231 and leaf-7 EBX bit 5 reports AVX2. -/
theorem avx2_reported_for_signed_max_leaf_witness :
    build_x86_64.IS_X86 = true ∧ machine_avx512.osxsave ∧ machine_avx512.xcr0 &&& 6 = 6 ∧
    ¬ (build_x86_64.compiler = Compiler.gnuc ∧ build_x86_64.arch = Arch.i386) ∧
    7 ≤ machine_avx512.leaf0.eax ∧ machine_avx512.leaf0.eax < 2 ^ 31 ∧
    machine_avx512.leaf7.ebx &&& (1 <<< 5) ≠ 0 ∧
    (get_cpu_features build_x86_64 machine_avx512 UNDEFINED).1 &&& AVX2 ≠ 0 :=
  have t := avx2_reported_for_signed_max_leaf build_x86_64 machine_avx512 (by decide)
    (by decide) (by decide)
  ⟨by decide, by decide, by decide, by decide, by decide, by decide, by decide,
    (t.1 (by decide) (by decide) (by decide)).2 (by decide)⟩

/-- C14: on x86, the value probed from the sentinel state contains SSE2 on
every 64-bit build; on a 32-bit build it contains SSE2 exactly when leaf-1 EDX
bit 26 is set; on both it contains SSE41 exactly when leaf-1 ECX bit 19 is
set, whatever OSXSAVE and XCR0 are. -/
theorem sse2_sse41_reported (b : Build) (m : Machine) (hx : b.IS_X86 = true) :
    (b.arch = Arch.x86_64 → (get_cpu_features b m UNDEFINED).1 &&& SSE2 ≠ 0) ∧
    (b.arch = Arch.i386 →
      ((get_cpu_features b m UNDEFINED).1 &&& SSE2 ≠ 0 ↔ m.leaf1.edx &&& (1 <<< 26) ≠ 0)) ∧
    ((get_cpu_features b m UNDEFINED).1 &&& SSE41 ≠ 0 ↔ m.leaf1.ecx &&& (1 <<< 19) ≠ 0) := by
  rw [get_cpu_features_x86_sentinel b m hx]
  refine ⟨fun h64 => (probe_has_sse2 b m).2 (Or.inl h64), fun h32 => ?_, probe_has_sse41 b m⟩
  rw [probe_has_sse2]
  constructor
  · rintro (h64 | he)
    · rw [h32] at h64; exact absurd h64 (by decide)
    · exact he
  · exact Or.inr

/-- Instance of C14: a 32-bit build on a processor with leaf-1 EDX bit 26 and
ECX bit 19 reports SSE2 and SSE41. -/
theorem sse2_sse41_reported_witness :
    build_i386_gnuc.IS_X86 = true ∧ build_i386_gnuc.arch = Arch.i386 ∧
    machine_avx512.leaf1.edx &&& (1 <<< 26) ≠ 0 ∧
    (get_cpu_features build_i386_gnuc machine_avx512 UNDEFINED).1 &&& SSE2 ≠ 0 ∧
    (get_cpu_features build_i386_gnuc machine_avx512 UNDEFINED).1 &&& SSE41 ≠ 0 :=
  have t := sse2_sse41_reported build_i386_gnuc machine_avx512 (by decide)
  ⟨by decide, by decide, by decide, (t.2.1 (by decide)).2 (by decide),
    t.2.2.2 (by decide)⟩

/-- C15, evaluated on a 64-bit build: the probe tests leaf-1 ECX bit 0
(the SSE3 bit) for SSSE3.  A processor with ECX bit 0 set and bit 9 clear is
reported to have SSSE3; a processor with ECX bit 9 set and bit 0 clear is
reported not to have it. -/
theorem ssse3_read_from_ecx_bit_zero :
    build_x86_64.IS_X86 = true ∧
    (machine_sse3_only.leaf1.ecx &&& (1 <<< 9) = 0 ∧
      (get_cpu_features build_x86_64 machine_sse3_only UNDEFINED).1 &&& SSSE3 ≠ 0) ∧
    (machine_ssse3_only.leaf1.ecx &&& (1 <<< 9) ≠ 0 ∧
      (get_cpu_features build_x86_64 machine_ssse3_only UNDEFINED).1 &&& SSSE3 = 0) := by
  decide

/-- C16: on every build, when the mask `get_cpu_features` hands over has none
of SSE41, AVX2, AVX512F, AVX512VL, each dispatcher makes exactly one call, to
the portable kernel, with the arguments it received; and two masks that agree
on those four bits (so differ at most in SSE2, SSSE3, AVX or unnamed bits)
lead to the same kernel call and the same output. -/
theorem lesser_bits_never_select (b : Build) (K : Kernels) (m1 m2 : Machine) (g1 g2 : Nat)
    (a : CompressArgs) (x : XofArgs) (h : HashManyArgs) :
    ((get_cpu_features b m1 g1).1 &&& SSE41 = 0 → (get_cpu_features b m1 g1).1 &&& AVX2 = 0 →
      (get_cpu_features b m1 g1).1 &&& AVX512F = 0 →
      (get_cpu_features b m1 g1).1 &&& AVX512VL = 0 →
      ((blake3_compress_in_place b K m1 g1 a).calls = [(Impl.portable, a)] ∧
        (blake3_compress_in_place b K m1 g1 a).output = K.compress_in_place_portable a) ∧
      ((blake3_compress_xof b K m1 g1 x).calls = [(Impl.portable, x)] ∧
        (blake3_compress_xof b K m1 g1 x).output = K.compress_xof_portable x) ∧
      ((blake3_hash_many b K m1 g1 h).calls = [(Impl.portable, h)] ∧
        (blake3_hash_many b K m1 g1 h).output = K.hash_many_portable h)) ∧
    ((get_cpu_features b m1 g1).1 &&& (SSE41 ||| AVX2 ||| AVX512F ||| AVX512VL)
        = (get_cpu_features b m2 g2).1 &&& (SSE41 ||| AVX2 ||| AVX512F ||| AVX512VL) →
      ((blake3_compress_in_place b K m1 g1 a).calls
          = (blake3_compress_in_place b K m2 g2 a).calls ∧
        (blake3_compress_in_place b K m1 g1 a).output
          = (blake3_compress_in_place b K m2 g2 a).output) ∧
      ((blake3_compress_xof b K m1 g1 x).calls = (blake3_compress_xof b K m2 g2 x).calls ∧
        (blake3_compress_xof b K m1 g1 x).output
          = (blake3_compress_xof b K m2 g2 x).output) ∧
      ((blake3_hash_many b K m1 g1 h).calls = (blake3_hash_many b K m2 g2 h).calls ∧
        (blake3_hash_many b K m1 g1 h).output = (blake3_hash_many b K m2 g2 h).output)) := by
  constructor
  · intro h41 h2 hf hvl
    simp [blake3_compress_in_place, blake3_compress_xof, blake3_hash_many, h41, h2, hf, hvl]
  · intro heq
    have e41 : (get_cpu_features b m1 g1).1 &&& SSE41 = (get_cpu_features b m2 g2).1 &&& SSE41 := by
      rw [and_selector_bits _ (SSE41 ||| AVX2 ||| AVX512F ||| AVX512VL) SSE41 (by decide), heq, ← and_selector_bits _ (SSE41 ||| AVX2 ||| AVX512F ||| AVX512VL) SSE41 (by decide)]
    have e2 : (get_cpu_features b m1 g1).1 &&& AVX2 = (get_cpu_features b m2 g2).1 &&& AVX2 := by
      rw [and_selector_bits _ (SSE41 ||| AVX2 ||| AVX512F ||| AVX512VL) AVX2 (by decide), heq, ← and_selector_bits _ (SSE41 ||| AVX2 ||| AVX512F ||| AVX512VL) AVX2 (by decide)]
    have ef : (get_cpu_features b m1 g1).1 &&& AVX512F
        = (get_cpu_features b m2 g2).1 &&& AVX512F := by
      rw [and_selector_bits _ (SSE41 ||| AVX2 ||| AVX512F ||| AVX512VL) AVX512F (by decide), heq,
        ← and_selector_bits _ (SSE41 ||| AVX2 ||| AVX512F ||| AVX512VL) AVX512F (by decide)]
    have evl : (get_cpu_features b m1 g1).1 &&& AVX512VL
        = (get_cpu_features b m2 g2).1 &&& AVX512VL := by
      rw [and_selector_bits _ (SSE41 ||| AVX2 ||| AVX512F ||| AVX512VL) AVX512VL (by decide), heq,
        ← and_selector_bits _ (SSE41 ||| AVX2 ||| AVX512F ||| AVX512VL) AVX512VL (by decide)]
    simp only [blake3_compress_in_place, blake3_compress_xof, blake3_hash_many, e41, e2, ef, evl]
    refine ⟨?_, ?_, ?_⟩ <;> split_ifs <;> exact ⟨rfl, rfl⟩

/-- Instance of C16: the forced mask 11 = SSE2 + SSSE3 + AVX selects the
portable kernel in all three dispatchers, and the masks 31 and 20, which
differ in SSE2, SSSE3 and AVX only, select the same `blake3_hash_many` kernel. -/
theorem lesser_bits_never_select_witness :
    ((get_cpu_features build_x86_64 machine_zero 11).1 = SSE2 ||| SSSE3 ||| AVX) ∧
    (blake3_compress_in_place build_x86_64 tagged_kernels machine_zero 11 args_compress).calls
      = [(Impl.portable, args_compress)] ∧
    (blake3_compress_xof build_x86_64 tagged_kernels machine_zero 11 args_xof).calls
      = [(Impl.portable, args_xof)] ∧
    (blake3_hash_many build_x86_64 tagged_kernels machine_zero 11 args_hash_many).calls
      = [(Impl.portable, args_hash_many)] ∧
    (blake3_hash_many build_x86_64 tagged_kernels machine_zero 31 args_hash_many).calls
      = (blake3_hash_many build_x86_64 tagged_kernels machine_zero 20 args_hash_many).calls :=
  have t := (lesser_bits_never_select build_x86_64 tagged_kernels machine_zero machine_zero
    11 0 args_compress args_xof args_hash_many).1 (by decide) (by decide) (by decide) (by decide)
  have u := (lesser_bits_never_select build_x86_64 tagged_kernels machine_zero machine_zero
    31 20 args_compress args_xof args_hash_many).2 (by decide)
  ⟨by decide, t.1.1, t.2.1.1, t.2.2.1, u.2.2.1⟩

/-- C17: on every build and for every machine, the value probed from the
sentinel state is at most 127, has no bit outside SSE2..AVX512VL, differs from
`UNDEFINED` and has no bit in common with it; 0 is the probe result of a
32-bit x86 build on a processor answering zeros, and 0 differs from
`UNDEFINED`. -/
theorem probe_result_within_capability_bits (b : Build) (m : Machine) :
    (get_cpu_features b m UNDEFINED).1 ≤ 127 ∧
    (get_cpu_features b m UNDEFINED).1
        &&& (SSE2 ||| SSSE3 ||| SSE41 ||| AVX ||| AVX2 ||| AVX512F ||| AVX512VL)
      = (get_cpu_features b m UNDEFINED).1 ∧
    (get_cpu_features b m UNDEFINED).1 ≠ UNDEFINED ∧
    (get_cpu_features b m UNDEFINED).1 &&& UNDEFINED = 0 ∧
    (get_cpu_features build_i386_gnuc machine_zero UNDEFINED).1 = 0 ∧
    (0 : Nat) ≠ UNDEFINED := by
  have hle : (get_cpu_features b m UNDEFINED).1 ≤ 127 := by
    cases hx : b.IS_X86
    · rw [get_cpu_features_other_sentinel b m hx]; decide
    · rw [get_cpu_features_x86_sentinel b m hx]; exact probe_x86_le b m
  have hU : (127 : Nat) < UNDEFINED := by decide
  refine ⟨hle, ?_, by omega, and_sentinel_of_le _ hle, by decide, by decide⟩
  have hc : (SSE2 ||| SSSE3 ||| SSE41 ||| AVX ||| AVX2 ||| AVX512F ||| AVX512VL : Nat)
      = 2 ^ 7 - 1 := by decide
  rw [hc]
  exact Nat.and_pow_two_sub_one_of_lt_two_pow (by omega)

/-- C18 fails as stated: on a 64-bit build, for a CPUID answer with leaf-7 EBX
bit 31 set and bit 16 clear (all gates open), the probe reports AVX512VL
without AVX512F; both compression dispatchers call the AVX-512 kernel while
`blake3_hash_many` calls the SSE4.1 kernel. -/
theorem avx512vl_reported_without_avx512f :
    build_x86_64.IS_X86 = true ∧
    (get_cpu_features build_x86_64 machine_vl_without_f UNDEFINED).1 &&& AVX512VL ≠ 0 ∧
    (get_cpu_features build_x86_64 machine_vl_without_f UNDEFINED).1 &&& AVX512F = 0 ∧
    (blake3_compress_in_place build_x86_64 tagged_kernels machine_vl_without_f UNDEFINED
      args_compress).calls = [(Impl.avx512, args_compress)] ∧
    (blake3_compress_xof build_x86_64 tagged_kernels machine_vl_without_f UNDEFINED
      args_xof).calls = [(Impl.avx512, args_xof)] ∧
    (blake3_hash_many build_x86_64 tagged_kernels machine_vl_without_f UNDEFINED
      args_hash_many).calls = [(Impl.sse41, args_hash_many)] := by
  decide

/-- C18, amended: on x86 from the sentinel state, for every answer in which
the word the probe tests after `cpuidex(regs, 7, 0)` has bit 16 whenever it
has bit 31, a probe result with AVX512VL has AVX512F too, and whenever
`blake3_compress_in_place` or `blake3_compress_xof` calls the AVX-512 kernel,
`blake3_hash_many` calls the AVX-512 kernel. -/
theorem avx512vl_implies_avx512f_when_ebx_does (b : Build) (K : Kernels) (m : Machine)
    (a : CompressArgs) (x : XofArgs) (h : HashManyArgs) (hx : b.IS_X86 = true)
    (hbits : (cpuidex b m 7 0).ebx &&& (1 <<< 31) ≠ 0 →
      (cpuidex b m 7 0).ebx &&& (1 <<< 16) ≠ 0) :
    ((get_cpu_features b m UNDEFINED).1 &&& AVX512VL ≠ 0 →
      (get_cpu_features b m UNDEFINED).1 &&& AVX512F ≠ 0) ∧
    ((∃ p ∈ (blake3_compress_in_place b K m UNDEFINED a).calls, p.1 = Impl.avx512) →
      (blake3_hash_many b K m UNDEFINED h).calls = [(Impl.avx512, h)]) ∧
    ((∃ p ∈ (blake3_compress_xof b K m UNDEFINED x).calls, p.1 = Impl.avx512) →
      (blake3_hash_many b K m UNDEFINED h).calls = [(Impl.avx512, h)]) := by
  have hvf : probe_x86 b m &&& AVX512VL ≠ 0 → probe_x86 b m &&& AVX512F ≠ 0 := by
    rw [probe_has_avx512vl, probe_has_avx512f]
    exact fun t => ⟨t.1, t.2.1, t.2.2.1, t.2.2.2.1, hbits t.2.2.2.2⟩
  have hm : b.BLAKE3_NO_AVX512 = false → probe_x86 b m &&& AVX512VL ≠ 0 →
      (blake3_hash_many b K m UNDEFINED h).calls = [(Impl.avx512, h)] := by
    intro hn hvl
    simp only [blake3_hash_many, get_cpu_features_x86_sentinel b m hx]
    rw [if_pos ⟨hx, hn, hvf hvl⟩]
  refine ⟨by rw [get_cpu_features_x86_sentinel b m hx]; exact hvf, ?_, ?_⟩
  · intro hsel
    by_cases c1 : b.BLAKE3_NO_AVX512 = false ∧ probe_x86 b m &&& AVX512VL ≠ 0
    · exact hm c1.1 c1.2
    · exfalso
      revert hsel
      simp only [blake3_compress_in_place, get_cpu_features_x86_sentinel b m hx]
      split_ifs with d1 d2
      · exact absurd d1.2 c1
      · simp
      · simp
  · intro hsel
    by_cases c1 : b.BLAKE3_NO_AVX512 = false ∧ probe_x86 b m &&& AVX512VL ≠ 0
    · exact hm c1.1 c1.2
    · exfalso
      revert hsel
      simp only [blake3_compress_xof, get_cpu_features_x86_sentinel b m hx]
      split_ifs with d1 d2
      · exact absurd d1.2 c1
      · simp
      · simp

/-- Instance of the amended C18: a processor with leaf-7 EBX bits 16 and 31;
AVX512VL and AVX512F are both reported and `blake3_hash_many` calls the
AVX-512 kernel. -/
theorem avx512vl_implies_avx512f_when_ebx_does_witness :
    build_x86_64.IS_X86 = true ∧
    ((cpuidex build_x86_64 machine_avx512 7 0).ebx &&& (1 <<< 31) ≠ 0 →
      (cpuidex build_x86_64 machine_avx512 7 0).ebx &&& (1 <<< 16) ≠ 0) ∧
    (get_cpu_features build_x86_64 machine_avx512 UNDEFINED).1 &&& AVX512VL ≠ 0 ∧
    (get_cpu_features build_x86_64 machine_avx512 UNDEFINED).1 &&& AVX512F ≠ 0 ∧
    (blake3_hash_many build_x86_64 tagged_kernels machine_avx512 UNDEFINED
      args_hash_many).calls = [(Impl.avx512, args_hash_many)] :=
  have hb : (cpuidex build_x86_64 machine_avx512 7 0).ebx &&& (1 <<< 31) ≠ 0 →
      (cpuidex build_x86_64 machine_avx512 7 0).ebx &&& (1 <<< 16) ≠ 0 := fun _ => by decide
  have t := avx512vl_implies_avx512f_when_ebx_does build_x86_64 tagged_kernels machine_avx512
    args_compress args_xof args_hash_many (by decide) hb
  have hvl : (get_cpu_features build_x86_64 machine_avx512 UNDEFINED).1 &&& AVX512VL ≠ 0 := by
    decide
  ⟨by decide, hb, hvl, t.1 hvl,
    t.2.1 ⟨(Impl.avx512, args_compress), by decide, rfl⟩⟩


end Blake3Dispatch
